import Mathlib

/-!
Verification of the video-analysis client orchestrator

A shallow embedding of the stateful core of the browser client in
`static/js/app.js` (class `VideoAnalysisApp`): the resilient resource-fetch
layer, the upload / process-video submission controller with its
single-flight guards, the completion poller with its synthetic progress
estimator, and the tiered live-preview fallback.

Conventions of the embedding:
* DOM reads (element lookups, file-input contents) are passed in as explicit
  environment records; DOM writes, console output, notifications and network
  requests become elements of an explicit `Effect` list, in program order.
* `fetch` outcomes are passed in as `FetchResult` / response values; the
  function then follows the source's control flow on that outcome.
* JS numbers that matter (the synthetic progress value) are modelled as `ℚ`;
  counters are `Nat`.
* Each `async` function that the claims treat as one atomic invocation is
  modelled as a single function from (state, environment, response) to
  (state, effects).  Where interleaving of suspension points matters
  (the guard lifecycle), a separate small-step event model is used.
-/

namespace VideoApp

/-- A camera record as delivered by `GET /api/cameras`. -/
structure Camera where
  id : Nat
  name : String
  enabled : Bool
  deriving DecidableEq, Repr

/-- Metadata of an uploaded video (`currentVideo` / `video_info`). -/
structure VideoInfo where
  filename : String
  deriving DecidableEq, Repr

/-- Observable side effects of the client, in program order. -/
inductive Effect where
  | log (msg : String)
  | notify (msg level : String)
  | request (url : String)
  | scheduleRetry (resource : String) (delayMs : Nat)
  | render (what : String)
  | setStatus (msg : String)
  | setBar (value : ℚ)
  | setBarAria (value : ℤ)
  | setProgressText (value : ℤ)
  | showProgressRow
  | scheduleHideProgressRow (delayMs : Nat)
  | setButtonLoading (which : String)
  | restoreButton (which : String)
  | startPolling (processedFilename : String)
  | showProcessedVideo (processedFilename : String)
  | showImage (cameraId : Nat)
  | hideStreamStatus
  | setPanelLoading
  | renderPreviewPanel (entries : List (Nat × Bool × String))
  | clearFileInput
  | displayVideoInfo (filename : String)
  | showProcessingControls
  | reloadUploadedVideos
  deriving DecidableEq, Repr

/-- The messages of the user-visible notifications in an effect list. -/
def notifyMsgs (es : List Effect) : List String :=
  es.filterMap fun e =>
    match e with
    | Effect.notify m _ => some m
    | _ => none

/-- The network-request URLs in an effect list. -/
def requestUrls (es : List Effect) : List String :=
  es.filterMap fun e =>
    match e with
    | Effect.request u => some u
    | _ => none

/-- Outcome of one `fetch` call: parsed success body, non-ok HTTP status, or
a thrown network error. -/
inductive FetchResult (α : Type) where
  | ok (body : α)
  | httpError (status : Nat)
  | networkError
  deriving DecidableEq, Repr

/-- Whether the response was ok (`response.ok`). -/
def FetchResult.isOk {α : Type} : FetchResult α → Bool
  | FetchResult.ok _ => true
  | _ => false

/-- Mutable fields of the `VideoAnalysisApp` instance (its constructor). -/
structure AppState where
  cameras : List Camera
  videos : List String
  uploadedVideos : List String
  currentVideo : Option VideoInfo
  retryCount : Nat
  maxRetries : Nat
  isUploading : Bool
  isProcessing : Bool
  deriving DecidableEq, Repr

/-- The state set up by `VideoAnalysisApp`'s constructor. -/
def initialState : AppState :=
  { cameras := [], videos := [], uploadedVideos := [], currentVideo := none,
    retryCount := 0, maxRetries := 3, isUploading := false, isProcessing := false }

/-- Which page elements exist, and which page we are on. -/
structure Dom where
  onLibraryPage : Bool
  camerasListExists : Bool
  videosGridExists : Bool
  uploadedVideosGridExists : Bool
  previewPanelExists : Bool
  deriving DecidableEq, Repr

/-- `handleApiError(resource, error)`: below `maxRetries`, bump the single
`retryCount` field and schedule a silent reload of that resource after
`1000 * retryCount` ms; at the maximum, emit one final-failure notification
and clear the counter. -/
def handleApiError (st : AppState) (resource : String) : AppState × List Effect :=
  let e0 := Effect.log ("Error loading " ++ resource)
  if st.retryCount < st.maxRetries then
    let n := st.retryCount + 1
    ({ st with retryCount := n },
      [e0,
       Effect.log ("Retrying " ++ resource ++ " (attempt " ++ toString n ++ "/" ++
         toString st.maxRetries ++ ")..."),
       Effect.scheduleRetry resource (1000 * n)])
  else
    ({ st with retryCount := 0 },
      [e0,
       Effect.notify ("Failed to load " ++ resource ++ " after " ++
         toString st.maxRetries ++ " attempts") "error"])

/-- `loadCameras()`: skipped on the library page; on success stores the list,
renders it when the element exists, and resets `retryCount`; on failure
delegates to `handleApiError('cameras')`. -/
def loadCameras (st : AppState) (dom : Dom) (res : FetchResult (List Camera)) :
    AppState × List Effect :=
  if dom.onLibraryPage then
    (st, [Effect.log "Skipping cameras load on library page - not needed"])
  else
    match res with
    | FetchResult.ok body =>
        ({ st with cameras := body, retryCount := 0 },
          [Effect.request "/api/cameras"] ++
            (if dom.camerasListExists then [Effect.render "cameras"] else []))
    | _ =>
        let (st2, es) := handleApiError st "cameras"
        (st2, Effect.request "/api/cameras" :: Effect.log "Error loading cameras" :: es)

/-- `loadVideos()`: on success stores the list and renders it when the grid
exists — note: it does **not** reset `retryCount`; on failure delegates to
`handleApiError('videos')`. -/
def loadVideos (st : AppState) (dom : Dom) (res : FetchResult (List String)) :
    AppState × List Effect :=
  match res with
  | FetchResult.ok body =>
      ({ st with videos := body },
        [Effect.request "/api/videos"] ++
          (if dom.videosGridExists then [Effect.render "videos"] else []))
  | _ =>
      let (st2, es) := handleApiError st "videos"
      (st2, Effect.request "/api/videos" :: Effect.log "Error loading videos" :: es)

/-- `loadUploadedVideos()`: skipped on the library page; on success stores the
list and renders it when the grid exists — it also does **not** reset
`retryCount`; on failure delegates to `handleApiError('uploaded-videos')`. -/
def loadUploadedVideos (st : AppState) (dom : Dom) (res : FetchResult (List String)) :
    AppState × List Effect :=
  if dom.onLibraryPage then
    (st, [Effect.log "Skipping uploaded videos load on library page - using page-specific logic"])
  else
    match res with
    | FetchResult.ok body =>
        ({ st with uploadedVideos := body },
          [Effect.request "/api/uploaded-videos"] ++
            (if dom.uploadedVideosGridExists then [Effect.render "uploaded-videos"] else []))
    | _ =>
        let (st2, es) := handleApiError st "uploaded-videos"
        (st2, Effect.request "/api/uploaded-videos" :: Effect.log "Error loading uploaded videos" :: es)

/-- The snapshot URL for a camera id. -/
def snapshotUrl (cameraId : Nat) : String :=
  "/api/stream/" ++ toString cameraId ++ "/snapshot"

/-- One entry of the preview grid built by `updateCameraPreviews`:
camera id, whether a snapshot blob was obtained, and the status tag. -/
def previewOf (c : Camera) (r : FetchResult Unit) : Nat × Bool × String :=
  match r with
  | FetchResult.ok _ => (c.id, true, "online")
  | _ => (c.id, false, "offline")

/-- `updateCameraPreviews()`: returns immediately when the camera list is
empty or the panel is missing; otherwise shows the loading indicator, probes
every camera's snapshot endpoint (fan-out), and re-renders the aggregate
panel from all results (fan-in); a failed probe tags only its camera
`offline`. -/
def updateCameraPreviews (st : AppState) (dom : Dom) (snap : Nat → FetchResult Unit) :
    List Effect :=
  if st.cameras.length = 0 then []
  else if dom.previewPanelExists = false then []
  else
    Effect.setPanelLoading ::
      (st.cameras.map fun c => Effect.request (snapshotUrl c.id)) ++
      [Effect.renderPreviewPanel (st.cameras.map fun c => previewOf c (snap c.id))]

/-- `loadCameraSnapshot(cameraId)` (modal snapshot fallback): always issues
the snapshot request first; on a non-ok status notifies capture failure; on a
thrown error notifies a capture error; on success swaps the still image in
when the modal elements exist. -/
def loadCameraSnapshot (cameraId : Nat) (elemsExist : Bool) (res : FetchResult Unit) :
    List Effect :=
  Effect.request (snapshotUrl cameraId) ::
    match res with
    | FetchResult.ok _ =>
        if elemsExist then [Effect.showImage cameraId, Effect.hideStreamStatus]
        else [Effect.log "Camera snapshot elements not found on this page"]
    | FetchResult.httpError _ =>
        [Effect.notify "Failed to capture snapshot" "error"]
    | FetchResult.networkError =>
        [Effect.log "Error loading snapshot", Effect.notify "Error capturing snapshot" "error"]

/-- The `videoElement.onerror` handler installed by `showCameraPreviewModal`:
announce the fallback in the status line, then run the snapshot fallback. -/
def onStreamError (cameraId : Nat) (statusExists elemsExist : Bool)
    (res : FetchResult Unit) : List Effect :=
  (if statusExists then [Effect.setStatus "Failed to load stream. Trying snapshot..."] else []) ++
    loadCameraSnapshot cameraId elemsExist res

/-- An effect that marks a camera offline / capture-failed in the modal flow. -/
def isOfflineMark (e : Effect) : Bool :=
  match e with
  | Effect.notify m _ => m = "Failed to capture snapshot" || m = "Error capturing snapshot"
  | _ => false

section ResourceLoaderClaims

/-- C6: the retry policy of `handleApiError`: on a transient failure with
the counter below the maximum (3), the counter is incremented, a silent retry
for the same resource is scheduled after `1000 * n` ms where `n` is the new
attempt number (1 s, 2 s, 3 s), and no user-visible notification is emitted;
once the counter has reached the maximum, exactly one final-failure
notification is emitted and the counter is reset to zero; the counter never
exceeds the maximum. -/
theorem handleApiError_retry_policy (st : AppState) (r : String)
    (hmax : st.maxRetries = 3) (hle : st.retryCount ≤ 3) :
    (st.retryCount < 3 →
      (handleApiError st r).1.retryCount = st.retryCount + 1 ∧
      Effect.scheduleRetry r (1000 * (st.retryCount + 1)) ∈ (handleApiError st r).2 ∧
      notifyMsgs (handleApiError st r).2 = []) ∧
    (st.retryCount = 3 →
      (handleApiError st r).1.retryCount = 0 ∧
      notifyMsgs (handleApiError st r).2 =
        ["Failed to load " ++ r ++ " after " ++ toString st.maxRetries ++ " attempts"]) ∧
    (handleApiError st r).1.retryCount ≤ 3 := by
  refine ⟨?_, ?_, ?_⟩
  · intro hlt
    have h : st.retryCount < st.maxRetries := by omega
    simp [handleApiError, h, notifyMsgs]
  · intro heq
    have h : ¬ st.retryCount < st.maxRetries := by omega
    simp [handleApiError, h, notifyMsgs]
  · by_cases h : st.retryCount < st.maxRetries
    · simp only [handleApiError, if_pos h]
      omega
    · simp only [handleApiError, if_neg h]
      exact Nat.zero_le 3

/-- Witness for C6 at concrete states: one failure from a fresh counter
schedules a 1 s retry silently; a failure at the ceiling notifies once and
resets. -/
theorem handleApiError_retry_policy_witness :
    (handleApiError initialState "cameras").1.retryCount = 1 ∧
    notifyMsgs (handleApiError initialState "cameras").2 = [] ∧
    (handleApiError { initialState with retryCount := 3 } "videos").1.retryCount = 0 ∧
    notifyMsgs (handleApiError { initialState with retryCount := 3 } "videos").2 =
      ["Failed to load videos after 3 attempts"] := by
  have h1 := handleApiError_retry_policy initialState "cameras" rfl (by decide)
  have h2 := handleApiError_retry_policy { initialState with retryCount := 3 } "videos"
    rfl (by decide)
  have h1a := h1.1 (by decide)
  have h2a := h2.2.1 rfl
  refine ⟨h1a.1, h1a.2.2, h2a.1, ?_⟩
  rw [h2a.2]
  decide

/-- C5 counterexample: the claim fails on the code: the attempt counter is
one field shared by all resource keys, and a successful `videos` fetch does
not reset it.  Concretely: with the shared counter at 2, a successful
`loadVideos` leaves it at 2 (not 0); and a failing `videos` fetch sequence
moves the counter that a subsequent `cameras` fetch sequence then reads and
increments further. -/
theorem retry_state_per_key_counterexample :
    (loadVideos { initialState with retryCount := 2 }
        { onLibraryPage := false, camerasListExists := true, videosGridExists := true,
          uploadedVideosGridExists := true, previewPanelExists := true }
        (FetchResult.ok ["a.mp4"])).1.retryCount = 2 ∧
    (handleApiError initialState "videos").1.retryCount = 1 ∧
    (handleApiError (handleApiError initialState "videos").1 "cameras").1.retryCount = 2 := by
  decide

/-- C5 amended: there is a single attempt counter shared by all three
resource keys: a failing fetch sequence for any key reads and increments the
same counter (so the counter movement is identical whichever key failed), a
successful `cameras` fetch resets it to zero, while successful `videos` and
`uploaded-videos` fetches leave it unchanged. -/
theorem retry_state_shared_counter (st : AppState) (dom : Dom)
    (cams : List Camera) (vids uvids : List String) (r1 r2 : String)
    (hlib : dom.onLibraryPage = false) :
    (loadCameras st dom (FetchResult.ok cams)).1.retryCount = 0 ∧
    (loadVideos st dom (FetchResult.ok vids)).1.retryCount = st.retryCount ∧
    (loadUploadedVideos st dom (FetchResult.ok uvids)).1.retryCount = st.retryCount ∧
    (handleApiError st r1).1.retryCount = (handleApiError st r2).1.retryCount := by
  refine ⟨?_, ?_, ?_, ?_⟩
  · simp [loadCameras, hlib]
  · simp [loadVideos]
  · simp [loadUploadedVideos, hlib]
  · by_cases h : st.retryCount < st.maxRetries <;> simp [handleApiError, h]

/-- Witness for the amended C5 at a concrete state and page. -/
theorem retry_state_shared_counter_witness :
    (loadCameras { initialState with retryCount := 2 }
        { onLibraryPage := false, camerasListExists := true, videosGridExists := true,
          uploadedVideosGridExists := true, previewPanelExists := true }
        (FetchResult.ok [])).1.retryCount = 0 ∧
    (loadVideos { initialState with retryCount := 2 }
        { onLibraryPage := false, camerasListExists := true, videosGridExists := true,
          uploadedVideosGridExists := true, previewPanelExists := true }
        (FetchResult.ok [])).1.retryCount = 2 := by
  have h := retry_state_shared_counter { initialState with retryCount := 2 }
    { onLibraryPage := false, camerasListExists := true, videosGridExists := true,
      uploadedVideosGridExists := true, previewPanelExists := true }
    [] [] [] "videos" "cameras" rfl
  exact ⟨h.1, h.2.1⟩

end ResourceLoaderClaims

section PreviewClaims

/-- C10: while the camera list is empty, `updateCameraPreviews` is a
complete no-op: no snapshot request is issued and no DOM effect at all is
produced — not even the loading indicator (the empty-list return precedes
the loading-state write). -/
theorem updateCameraPreviews_noop_when_no_cameras (st : AppState) (dom : Dom)
    (snap : Nat → FetchResult Unit) (h : st.cameras = []) :
    updateCameraPreviews st dom snap = [] := by
  simp [updateCameraPreviews, h]

/-- Witness for C10: the fresh session state has no cameras, and the refresh
produces no effects there. -/
theorem updateCameraPreviews_noop_witness :
    updateCameraPreviews initialState
      { onLibraryPage := false, camerasListExists := true, videosGridExists := true,
        uploadedVideosGridExists := true, previewPanelExists := true }
      (fun _ => FetchResult.networkError) = [] :=
  updateCameraPreviews_noop_when_no_cameras initialState _ _ rfl

end PreviewClaims

section PreviewFallbackClaim

/-- C9: tiered preview degradation: (a) the stream-error handler of the
preview modal always issues a snapshot request for the failing camera, and no
offline/capture-failure marking precedes that request; (b) in the periodic
refresh, the rendered aggregate panel has one entry per camera, each entry
computed only from that camera's own probe result, so one camera's snapshot
failure yields an `offline` tag for that camera while all other cameras are
still rendered with their own results. -/
theorem preview_fallback_deterministic (cameraId : Nat) (statusExists elemsExist : Bool)
    (res : FetchResult Unit) (st : AppState) (dom : Dom) (snap : Nat → FetchResult Unit)
    (hpanel : dom.previewPanelExists = true) (hne : st.cameras ≠ []) :
    (∃ pre post, onStreamError cameraId statusExists elemsExist res =
        pre ++ Effect.request (snapshotUrl cameraId) :: post ∧
        ∀ e ∈ pre, isOfflineMark e = false) ∧
    (∃ entries, Effect.renderPreviewPanel entries ∈ updateCameraPreviews st dom snap ∧
      (∀ i : Nat, entries[i]? =
        (st.cameras[i]?).map fun c => previewOf c (snap c.id)) ∧
      ∀ c : Camera, ∀ r : FetchResult Unit,
        previewOf c r = (c.id, r.isOk, if r.isOk then "online" else "offline")) := by
  constructor
  · refine ⟨(if statusExists then
        [Effect.setStatus "Failed to load stream. Trying snapshot..."] else []),
      (match res with
       | FetchResult.ok _ =>
           if elemsExist then [Effect.showImage cameraId, Effect.hideStreamStatus]
           else [Effect.log "Camera snapshot elements not found on this page"]
       | FetchResult.httpError _ => [Effect.notify "Failed to capture snapshot" "error"]
       | FetchResult.networkError =>
           [Effect.log "Error loading snapshot", Effect.notify "Error capturing snapshot" "error"]),
      ?_, ?_⟩
    · cases res <;> rfl
    · intro e he
      by_cases hs : statusExists
      · simp only [hs, if_true, List.mem_singleton] at he
        subst he
        rfl
      · simp [hs] at he
  · refine ⟨st.cameras.map fun c => previewOf c (snap c.id), ?_, ?_, ?_⟩
    · have hlen : st.cameras.length ≠ 0 := by
        simpa [List.length_eq_zero] using hne
      simp [updateCameraPreviews, hlen, hpanel]
    · intro i
      simp [List.getElem?_map]
    · intro c r
      cases r <;> rfl

/-- Witness for C9 at a concrete camera set where camera 2's snapshot probe
fails while camera 1's succeeds. -/
theorem preview_fallback_deterministic_witness :
    (∃ pre post, onStreamError 7 true true (FetchResult.httpError 500) =
        pre ++ Effect.request (snapshotUrl 7) :: post ∧
        ∀ e ∈ pre, isOfflineMark e = false) ∧
    (∃ entries, Effect.renderPreviewPanel entries ∈
        updateCameraPreviews
          { initialState with cameras :=
              [{ id := 1, name := "door", enabled := true },
               { id := 2, name := "yard", enabled := true }] }
          { onLibraryPage := false, camerasListExists := true, videosGridExists := true,
            uploadedVideosGridExists := true, previewPanelExists := true }
          (fun i => if i = 1 then FetchResult.ok () else FetchResult.httpError 500) ∧
      (∀ i : Nat, entries[i]? =
        (({ initialState with cameras :=
              [{ id := 1, name := "door", enabled := true },
               { id := 2, name := "yard", enabled := true }] } : AppState).cameras[i]?).map
          fun c => previewOf c
            ((fun i => if i = 1 then FetchResult.ok () else FetchResult.httpError 500) c.id)) ∧
      ∀ c : Camera, ∀ r : FetchResult Unit,
        previewOf c r = (c.id, r.isOk, if r.isOk then "online" else "offline")) :=
  preview_fallback_deterministic 7 true true (FetchResult.httpError 500)
    { initialState with cameras :=
        [{ id := 1, name := "door", enabled := true },
         { id := 2, name := "yard", enabled := true }] }
    { onLibraryPage := false, camerasListExists := true, videosGridExists := true,
      uploadedVideosGridExists := true, previewPanelExists := true }
    (fun i => if i = 1 then FetchResult.ok () else FetchResult.httpError 500)
    rfl (by decide)

end PreviewFallbackClaim

/-! ## Completion poller (`startProgressPolling`, lines 694–787)

The interval callback fires every 800 ms; `pollTick` is one firing, given the
synthetic increment `inc` (the source draws `Math.random() * 8 + 2`, i.e. a
value in `[2, 10)`) and the outcome of the completion probe.  The 10-minute
`setTimeout` is modelled by `pollTimeout`; the source never cancels it.  The
local variables `progress` / `lastProgress` and the displayed bar width are
state fields; `completed` records that the probe has returned ok (the branch
that runs `clearInterval`). -/

/-- DOM environment of `startProgressPolling`. -/
structure PollEnv where
  processedFilename : String
  processedVideoExists : Bool
  deriving DecidableEq, Repr

/-- Closure state of one polling loop.  `barWidth` is the value last written
to the progress bar (the `processVideo` caller initializes the bar to 0
before starting the loop). -/
structure PollerState where
  progress : ℚ
  lastProgress : ℚ
  barWidth : ℚ
  intervalActive : Bool
  completed : Bool
  deriving DecidableEq, Repr

/-- Poller state at the moment `startProgressPolling` is entered. -/
def initPoller : PollerState :=
  { progress := 0, lastProgress := 0, barWidth := 0, intervalActive := true, completed := false }

/-- The synthetic estimator step: below 90 the progress advances by the drawn
increment and is clamped to 90; at 90 it stays. -/
def bumpProgress (p inc : ℚ) : ℚ :=
  if p < 90 then (if p + inc > 90 then 90 else p + inc) else p

/-- The status-text ladder driven by the synthetic progress. -/
def statusForProgress (p : ℚ) : List Effect :=
  if p < 20 then [Effect.setStatus "Initializing video processing..."]
  else if p < 40 then [Effect.setStatus "Analyzing video content and detecting faces..."]
  else if p < 60 then [Effect.setStatus "Processing license plates and objects..."]
  else if p < 80 then [Effect.setStatus "Applying privacy protection and blurring..."]
  else if p < 90 then [Effect.setStatus "Finalizing video encoding..."]
  else []

/-- The completion-probe URL. -/
def checkUrl (env : PollEnv) : String :=
  "/api/processed-video/" ++ env.processedFilename

/-- One firing of the poll interval callback.  On a successful probe the
interval is cleared, the displayed progress is forced to 100 and the success
effects fire — but the local `progress` variable is not updated.  On a
non-ok or failed probe the tick just continues (not-ready is not an error). -/
def pollTick (env : PollEnv) (inc : ℚ) (probe : FetchResult Unit) (s : PollerState) :
    PollerState × List Effect :=
  if s.intervalActive = false then (s, [])
  else
    let p1 := bumpProgress s.progress inc
    let displayEs :=
      [Effect.log ("Progress update: " ++ toString (round p1) ++ "%"),
       Effect.setBar p1, Effect.setBarAria (round p1), Effect.setProgressText (round p1)] ++
        statusForProgress p1
    if probe.isOk then
      ({ s with progress := p1, barWidth := 100, intervalActive := false, completed := true },
        displayEs ++
          [Effect.request (checkUrl env),
           Effect.setBar 100, Effect.setBarAria 100, Effect.setProgressText 100,
           Effect.setStatus "Processing completed successfully!"] ++
          (if env.processedVideoExists
            then [Effect.showProcessedVideo env.processedFilename] else []) ++
          [Effect.notify "Video processed successfully!" "success",
           Effect.scheduleHideProgressRow 3000])
    else
      let stuckEs := if |p1 - s.lastProgress| < 1
        then [Effect.setStatus "Processing in progress... Please wait"] else []
      ({ s with progress := p1, barWidth := p1, lastProgress := p1 },
        displayEs ++ [Effect.request (checkUrl env)] ++ stuckEs)

/-- The expiry of the 10-minute `setTimeout`: clear the interval and, when the
local `progress` variable is below 100, fire the timeout status and warning. -/
def pollTimeout (s : PollerState) : PollerState × List Effect :=
  ({ s with intervalActive := false },
    if s.progress < 100 then
      [Effect.setStatus "Processing timeout - check server logs",
       Effect.notify "Processing timeout - check server logs" "warning"]
    else [])

/-- Running the poll loop over a list of ticks (increment, probe outcome). -/
def pollRun (env : PollEnv) (ticks : List (ℚ × FetchResult Unit)) (s : PollerState) :
    PollerState :=
  ticks.foldl (fun s t => (pollTick env t.1 t.2 s).1) s

/-- Invariant of the poll loop tying the display to the local variables. -/
def PollInv (s : PollerState) : Prop :=
  0 ≤ s.progress ∧ s.progress ≤ 90 ∧
  (s.completed = true → s.barWidth = 100 ∧ s.intervalActive = false) ∧
  (s.completed = false → s.barWidth = s.progress)

theorem bumpProgress_mono (p inc : ℚ) (hinc : 0 ≤ inc) (_h90 : p ≤ 90) :
    p ≤ bumpProgress p inc := by
  unfold bumpProgress
  split_ifs <;> linarith

theorem bumpProgress_le (p inc : ℚ) (h90 : p ≤ 90) : bumpProgress p inc ≤ 90 := by
  unfold bumpProgress
  split_ifs <;> linarith

theorem bumpProgress_nonneg (p inc : ℚ) (hinc : 0 ≤ inc) (h0 : 0 ≤ p) :
    0 ≤ bumpProgress p inc := by
  unfold bumpProgress
  split_ifs <;> linarith

theorem pollInv_init : PollInv initPoller := by
  refine ⟨?_, ?_, ?_, ?_⟩ <;> norm_num [initPoller]

theorem pollTick_inv (env : PollEnv) (inc : ℚ) (probe : FetchResult Unit) (s : PollerState)
    (hinc : 0 ≤ inc) (h : PollInv s) : PollInv (pollTick env inc probe s).1 := by
  obtain ⟨h0, h90, hc, hnc⟩ := h
  by_cases hact : s.intervalActive = false
  · simpa [pollTick, hact] using ⟨h0, h90, hc, hnc⟩
  · have hact' : s.intervalActive = true := by simpa using hact
    have hcompl : s.completed = false := by
      cases hcase : s.completed
      · rfl
      · have := (hc hcase).2
        rw [hact'] at this
        cases this
    by_cases hok : probe.isOk = true
    · simp only [pollTick, hact', Bool.true_eq_false, if_false, hok, if_true]
      exact ⟨bumpProgress_nonneg _ _ hinc h0, bumpProgress_le _ _ h90,
        fun _ => ⟨rfl, rfl⟩, fun hcontra => by cases hcontra⟩
    · have hok' : probe.isOk = false := by simpa using hok
      simp only [pollTick, hact', Bool.true_eq_false, if_false, hok', Bool.false_eq_true]
      exact ⟨bumpProgress_nonneg _ _ hinc h0, bumpProgress_le _ _ h90,
        fun hcontra => absurd hcontra (by simp [hcompl]), fun _ => rfl⟩

theorem pollTick_barWidth_mono (env : PollEnv) (inc : ℚ) (probe : FetchResult Unit)
    (s : PollerState) (hinc : 0 ≤ inc) (h : PollInv s) :
    s.barWidth ≤ (pollTick env inc probe s).1.barWidth := by
  obtain ⟨h0, h90, hc, hnc⟩ := h
  by_cases hact : s.intervalActive = false
  · simp [pollTick, hact]
  · have hact' : s.intervalActive = true := by simpa using hact
    have hcompl : s.completed = false := by
      cases hcase : s.completed
      · rfl
      · have := (hc hcase).2
        rw [hact'] at this
        cases this
    have hbw : s.barWidth = s.progress := hnc hcompl
    by_cases hok : probe.isOk = true
    · simp only [pollTick, hact', Bool.true_eq_false, if_false, hok, if_true]
      rw [hbw]
      linarith
    · have hok' : probe.isOk = false := by simpa using hok
      simp only [pollTick, hact', Bool.true_eq_false, if_false, hok', Bool.false_eq_true]
      rw [hbw]
      exact bumpProgress_mono _ _ hinc h90

theorem pollRun_inv (env : PollEnv) (ticks : List (ℚ × FetchResult Unit)) (s : PollerState)
    (hticks : ∀ t ∈ ticks, 0 ≤ t.1) (h : PollInv s) : PollInv (pollRun env ticks s) := by
  induction ticks generalizing s with
  | nil => exact h
  | cons t ts ih =>
      have h1 := pollTick_inv env t.1 t.2 s (hticks t (List.mem_cons_self t ts)) h
      have hts : ∀ u ∈ ts, 0 ≤ u.1 := fun u hu => hticks u (List.mem_cons_of_mem t hu)
      simpa [pollRun] using ih ((pollTick env t.1 t.2 s).1) hts h1

section PollerClaims

/-- C4: over any run of the poll loop from its initial state with
nonnegative synthetic increments (the source draws them in `[2,10)`): the
displayed progress of the job never decreases on the next tick; it equals
exactly 100 iff the completion probe has returned success (`completed`);
while un-completed it stays at or below the soft ceiling 90 — so the
synthetic estimator alone never produces 100, the local estimator variable
itself never exceeds 90, and the timeout expiry leaves the displayed
progress exactly where it was (below 100 when the job never completed). -/
theorem progress_monotone_and_100_iff_completed (env : PollEnv)
    (ticks : List (ℚ × FetchResult Unit)) (inc : ℚ) (probe : FetchResult Unit)
    (hticks : ∀ t ∈ ticks, 0 ≤ t.1) (hinc : 0 ≤ inc) :
    (pollRun env ticks initPoller).barWidth ≤
      (pollTick env inc probe (pollRun env ticks initPoller)).1.barWidth ∧
    ((pollRun env ticks initPoller).completed = true ↔
      (pollRun env ticks initPoller).barWidth = 100) ∧
    ((pollRun env ticks initPoller).completed = false →
      (pollRun env ticks initPoller).barWidth ≤ 90) ∧
    (pollRun env ticks initPoller).progress ≤ 90 ∧
    (pollTimeout (pollRun env ticks initPoller)).1.barWidth =
      (pollRun env ticks initPoller).barWidth := by
  have hinv := pollRun_inv env ticks initPoller hticks pollInv_init
  obtain ⟨h0, h90, hc, hnc⟩ := hinv
  refine ⟨pollTick_barWidth_mono env inc probe _ hinc ⟨h0, h90, hc, hnc⟩, ?_, ?_, h90, rfl⟩
  · constructor
    · intro hcompl
      exact (hc hcompl).1
    · intro hbw
      by_contra hcc
      have hfalse : (pollRun env ticks initPoller).completed = false := by
        cases hcase : (pollRun env ticks initPoller).completed
        · rfl
        · exact absurd hcase hcc
      have := hnc hfalse
      rw [this] at hbw
      linarith [h90, hbw.le]
  · intro hcompl
    rw [hnc hcompl]
    exact h90

/-- Witness for C4 on the empty run (the state right after
`startProgressPolling` is entered). -/
theorem progress_monotone_witness :
    (initPoller.completed = true ↔ initPoller.barWidth = 100) ∧
    initPoller.progress ≤ 90 ∧
    (pollTimeout initPoller).1.barWidth = initPoller.barWidth := by
  have h := progress_monotone_and_100_iff_completed
    { processedFilename := "out.mp4", processedVideoExists := true } [] 0
    FetchResult.networkError (fun t ht => absurd ht (List.not_mem_nil t)) (le_refl 0)
  exact ⟨h.2.1, h.2.2.2.1, h.2.2.2.2⟩

/-- C2 (code bug): a job that completes successfully still fires the
timeout effects when the 10-minute timer later expires: the success branch
clears the interval and forces the *displayed* progress to 100, but never
assigns the local `progress` variable, so the timer's `progress < 100` guard
(whose evident purpose is to suppress the timeout after completion) passes
and the timeout status text and warning notification fire a second terminal
outcome.  Concrete run: the first tick's probe succeeds (increment 5); the
success notification fires; the later timer expiry nevertheless emits the
timeout notification. -/
theorem timeout_fires_after_success :
    Effect.notify "Video processed successfully!" "success" ∈
      (pollTick { processedFilename := "out.mp4", processedVideoExists := true }
        5 (FetchResult.ok ()) initPoller).2 ∧
    (pollTick { processedFilename := "out.mp4", processedVideoExists := true }
        5 (FetchResult.ok ()) initPoller).1.completed = true ∧
    Effect.notify "Processing timeout - check server logs" "warning" ∈
      (pollTimeout (pollTick { processedFilename := "out.mp4", processedVideoExists := true }
        5 (FetchResult.ok ()) initPoller).1).2 := by
  refine ⟨?_, ?_, ?_⟩ <;>
    norm_num [pollTick, pollTimeout, initPoller, bumpProgress, statusForProgress,
      FetchResult.isOk]

end PollerClaims

/-! ## Job submission controller (`processVideo` lines 588–692,
`handleVideoUpload` lines 1138–1223, legacy `uploadVideo` lines 516–546)

Each `async` handler is modelled as one function from (state, DOM
environment, response) to (state, effects); the `finally` blocks of the
source are the trailing guard resets of the non-early-return branches. -/

/-- DOM environment of `processVideo`. -/
structure ProcDom where
  checkboxExists : Bool
  checkboxChecked : Bool
  progressRowExists : Bool
  progressElemsExist : Bool
  processBtnExists : Bool
  deriving DecidableEq, Repr

/-- Outcome of `POST /api/process-video`: accepted with the processed
filename, rejected with an optional `error` field in the body, or a thrown
network error. -/
inductive ProcResponse where
  | accepted (processedFilename : String)
  | rejected (errMsg : Option String)
  | networkError
  deriving DecidableEq, Repr

/-- `processVideo()`.  Early returns: guard held → log only; no uploaded
video → notify and release the guard; depersonalization checkbox missing →
log and return (the guard is *not* released); progress elements missing →
notify and return (the guard is *not* released).  Otherwise the submission
request is issued and the `finally` block releases the guard on success,
rejection and network failure alike — immediately after merely starting the
polling loop in the accepted case. -/
def processVideo (st : AppState) (dom : ProcDom) (resp : ProcResponse) :
    AppState × List Effect :=
  if st.isProcessing then
    (st, [Effect.log "Processing already in progress, ignoring duplicate request"])
  else
    let st1 := { st with isProcessing := true }
    if st1.currentVideo = none then
      ({ st1 with isProcessing := false },
        [Effect.notify "Please upload a video first" "error"])
    else if dom.checkboxExists = false then
      (st1, [Effect.log "Depersonalization checkbox not found on this page"])
    else
      let rowEs := if dom.progressRowExists
        then [Effect.showProgressRow, Effect.log "Progress section shown"]
        else [Effect.log "Progress section not found!"]
      if dom.progressElemsExist = false then
        (st1, rowEs ++ [Effect.log "Progress elements not found on this page",
          Effect.notify "Progress display not available" "warning"])
      else
        let initEs := rowEs ++
          [Effect.log "Progress elements found successfully",
           Effect.setBar 0, Effect.setBarAria 0, Effect.setProgressText 0,
           Effect.setStatus "Starting video processing...",
           Effect.log "Initial progress display set"]
        let btnEs := if dom.processBtnExists
          then [Effect.setButtonLoading "processVideoBtn"] else []
        let finEs := if dom.processBtnExists
          then [Effect.restoreButton "processVideoBtn"] else []
        match resp with
        | ProcResponse.accepted f =>
            ({ st1 with isProcessing := false },
              initEs ++ btnEs ++
                [Effect.request "/api/process-video",
                 Effect.log ("Starting progress polling with filename: " ++ f),
                 Effect.startPolling f] ++ finEs)
        | ProcResponse.rejected e =>
            ({ st1 with isProcessing := false },
              initEs ++ btnEs ++
                [Effect.request "/api/process-video",
                 Effect.log ("Processing error: " ++ e.getD "Processing failed"),
                 Effect.setStatus "Processing failed",
                 Effect.notify "Processing failed" "error"] ++ finEs)
        | ProcResponse.networkError =>
            ({ st1 with isProcessing := false },
              initEs ++ btnEs ++
                [Effect.request "/api/process-video",
                 Effect.log "Processing error: network error",
                 Effect.setStatus "Processing failed",
                 Effect.notify "Processing failed" "error"] ++ finEs)

/-- A chosen file in the `videoFile` input. -/
structure UploadFile where
  name : String
  mediaType : String
  size : Nat
  deriving DecidableEq, Repr

/-- DOM environment of the upload handlers. -/
structure UploadDom where
  file : Option UploadFile
  uploadBtnExists : Bool
  deriving DecidableEq, Repr

/-- Outcome of `POST /api/upload-video` as consumed by `handleVideoUpload`:
an ok JSON body with `success`, optional `error` and optional `video_info`;
a non-ok HTTP status; or a thrown network error with its message. -/
inductive UploadResponse where
  | ok (success : Bool) (errMsg : Option String) (videoInfo : Option VideoInfo)
  | httpError (status : Nat)
  | networkError (msg : String)
  deriving DecidableEq, Repr

/-- The accepted media-type allow-list. -/
def allowedTypes : List String :=
  ["video/mp4", "video/avi", "video/mov", "video/mkv", "video/webm"]

/-- `handleVideoUpload()`.  The no-file rejection notifies and releases the
guard; the media-type rejection notifies but returns *without* releasing the
guard.  Past validation, the request is issued and the `finally` block
releases the guard on every response outcome. -/
def handleVideoUpload (st : AppState) (dom : UploadDom) (resp : UploadResponse) :
    AppState × List Effect :=
  if st.isUploading then
    (st, [Effect.log "Upload already in progress, ignoring duplicate request"])
  else
    let st1 := { st with isUploading := true }
    match dom.file with
    | none =>
        ({ st1 with isUploading := false },
          [Effect.notify "Please select a video file" "warning"])
    | some f =>
        if allowedTypes.contains f.mediaType = false then
          (st1,
            [Effect.notify "Please select a valid video file (MP4, AVI, MOV, MKV, WEBM)" "warning"])
        else
          let preEs := [Effect.log ("Uploading video: " ++ f.name),
              Effect.notify "Uploading video..." "info"] ++
            (if dom.uploadBtnExists then [Effect.setButtonLoading "uploadBtn"] else []) ++
            [Effect.request "/api/upload-video"]
          let finEs := if dom.uploadBtnExists then [Effect.restoreButton "uploadBtn"] else []
          match resp with
          | UploadResponse.ok true _ info =>
              ({ st1 with
                  isUploading := false
                  currentVideo := (match info with
                    | some v => some v
                    | none => st1.currentVideo) },
                preEs ++
                  [Effect.notify "Video uploaded successfully!" "success",
                   Effect.clearFileInput] ++
                  (match info with
                   | some v => [Effect.displayVideoInfo v.filename]
                   | none => []) ++
                  [Effect.showProcessingControls, Effect.reloadUploadedVideos] ++ finEs)
          | UploadResponse.ok false e _ =>
              ({ st1 with isUploading := false },
                preEs ++ [Effect.notify (e.getD "Upload failed") "error"] ++ finEs)
          | UploadResponse.httpError status =>
              ({ st1 with isUploading := false },
                preEs ++ [Effect.log "Video upload error",
                  Effect.notify ("Upload failed: Upload failed: " ++ toString status) "error"] ++
                  finEs)
          | UploadResponse.networkError m =>
              ({ st1 with isUploading := false },
                preEs ++ [Effect.log "Video upload error",
                  Effect.notify ("Upload failed: " ++ m) "error"] ++ finEs)

/-- Outcome of `POST /api/upload-video` as consumed by the legacy
`uploadVideo` handler. -/
inductive LegacyUploadResponse where
  | ok (info : VideoInfo)
  | httpError (errMsg : Option String)
  | networkError
  deriving DecidableEq, Repr

/-- Legacy `uploadVideo()` (still bound to the same form by
`initVideoUpload`): validates only that a file was chosen — no media-type
check, no guard — then always issues the upload request. -/
def uploadVideo (st : AppState) (dom : UploadDom) (resp : LegacyUploadResponse) :
    AppState × List Effect :=
  match dom.file with
  | none => (st, [Effect.notify "Please select a video file" "error"])
  | some _ =>
      match resp with
      | LegacyUploadResponse.ok info =>
          ({ st with currentVideo := some info },
            [Effect.request "/api/upload-video",
             Effect.displayVideoInfo info.filename,
             Effect.notify "Video uploaded successfully!" "success"])
      | LegacyUploadResponse.httpError e =>
          (st, [Effect.request "/api/upload-video",
            Effect.notify (e.getD "Upload failed") "error"])
      | LegacyUploadResponse.networkError =>
          (st, [Effect.request "/api/upload-video",
            Effect.log "Upload error", Effect.notify "Upload failed" "error"])

/-- One firing of the `videoUploadForm` submit event.  `bindEvents` registers
`handleVideoUpload` on the form and `initVideoUpload` additionally registers
the legacy `uploadVideo` on the same form, so a single submit runs both
(serialized here in registration order). -/
def onUploadFormSubmit (st : AppState) (dom : UploadDom)
    (respNew : UploadResponse) (respLegacy : LegacyUploadResponse) :
    AppState × List Effect :=
  let r1 := handleVideoUpload st dom respNew
  let r2 := uploadVideo r1.1 dom respLegacy
  (r2.1, r1.2 ++ r2.2)

/-- A session state with an uploaded video ready for processing. -/
def stReady : AppState :=
  { initialState with currentVideo := some { filename := "v.mp4" } }

/-- A full processing page environment. -/
def procDomFull : ProcDom :=
  { checkboxExists := true, checkboxChecked := true, progressRowExists := true,
    progressElemsExist := true, processBtnExists := true }

/-- An upload environment whose chosen file has a disallowed media type. -/
def badTypeDom : UploadDom :=
  { file := some { name := "clip.flv", mediaType := "video/x-flv", size := 1048576 },
    uploadBtnExists := true }

section SubmissionClaims

/-- C1 (code bug): the guard flags are *not* always released when a
guarded invocation ends.  At the concrete failing input — a submit with a
selected file of the disallowed type `video/x-flv` — `handleVideoUpload`
acquires `uploading`, rejects the file, and returns with the guard still
held, so a subsequent valid upload is silently rejected as a duplicate;
likewise `processVideo` invoked with the depersonalization checkbox absent
returns with `processing` still held.  (The no-file path and the `finally`
block do release the guards, showing release-on-every-path was the intent.) -/
theorem guard_left_held_after_validation_rejection :
    allowedTypes.contains "video/x-flv" = false ∧
    (handleVideoUpload initialState badTypeDom (UploadResponse.networkError "failed to fetch")).1.isUploading
      = true ∧
    requestUrls
      (handleVideoUpload initialState badTypeDom (UploadResponse.networkError "failed to fetch")).2
      = [] ∧
    (handleVideoUpload
        (handleVideoUpload initialState badTypeDom (UploadResponse.networkError "failed to fetch")).1
        { file := some { name := "ok.mp4", mediaType := "video/mp4", size := 5 },
          uploadBtnExists := true }
        (UploadResponse.ok true none none)).2 =
      [Effect.log "Upload already in progress, ignoring duplicate request"] ∧
    (processVideo stReady
        { checkboxExists := false, checkboxChecked := false, progressRowExists := true,
          progressElemsExist := true, processBtnExists := true }
        ProcResponse.networkError).1.isProcessing = true := by
  decide

/-- C7 counterexample: the claim fails on the code: when the backend
rejects the submission with an error message in the body, the user-visible
notification is still the generic "Processing failed" — the backend message
"GPU unavailable" reaches only the console log, never a notification. -/
theorem backend_error_message_not_surfaced :
    notifyMsgs
      (processVideo stReady procDomFull (ProcResponse.rejected (some "GPU unavailable"))).2 =
      ["Processing failed"] ∧
    "GPU unavailable" ∉
      notifyMsgs
        (processVideo stReady procDomFull (ProcResponse.rejected (some "GPU unavailable"))).2 ∧
    Effect.log "Processing error: GPU unavailable" ∈
      (processVideo stReady procDomFull (ProcResponse.rejected (some "GPU unavailable"))).2 := by
  decide

/-- C7 amended: on backend rejection of the processing submission the job
shows the failure state ("Processing failed" status text) and the
notification always carries the generic "Processing failed" message,
regardless of any backend-provided error message; the backend message is
only written to the console log. -/
theorem backend_rejection_generic_message (st : AppState) (dom : ProcDom) (e : Option String)
    (hg : st.isProcessing = false) (hv : st.currentVideo ≠ none)
    (hcb : dom.checkboxExists = true) (hpe : dom.progressElemsExist = true) :
    Effect.setStatus "Processing failed" ∈
      (processVideo st dom (ProcResponse.rejected e)).2 ∧
    notifyMsgs (processVideo st dom (ProcResponse.rejected e)).2 = ["Processing failed"] ∧
    Effect.log ("Processing error: " ++ e.getD "Processing failed") ∈
      (processVideo st dom (ProcResponse.rejected e)).2 := by
  by_cases hrow : dom.progressRowExists <;> by_cases hbtn : dom.processBtnExists <;>
    simp [processVideo, hg, hv, hcb, hpe, hrow, hbtn, notifyMsgs]

/-- Witness for the amended C7 at the concrete rejection used above. -/
theorem backend_rejection_generic_message_witness :
    Effect.setStatus "Processing failed" ∈
      (processVideo stReady procDomFull (ProcResponse.rejected (some "disk full"))).2 ∧
    notifyMsgs (processVideo stReady procDomFull (ProcResponse.rejected (some "disk full"))).2 =
      ["Processing failed"] := by
  have h := backend_rejection_generic_message stReady procDomFull (some "disk full")
    rfl (by decide) rfl rfl
  exact ⟨h.1, h.2.1⟩

/-- C8 counterexample: the claim fails on the code: an upload initiated by
the form submit with a file of disallowed type `video/x-flv` is *not* free of
network requests and state changes — the legacy `uploadVideo` handler, bound
to the same form by `initVideoUpload`, checks only that a file was chosen and
issues `POST /api/upload-video` anyway, while `handleVideoUpload`'s rejection
leaves the `uploading` guard held (a state change). -/
theorem upload_validation_bypassed :
    allowedTypes.contains "video/x-flv" = false ∧
    "/api/upload-video" ∈
      requestUrls (onUploadFormSubmit initialState badTypeDom
        (UploadResponse.networkError "failed to fetch") LegacyUploadResponse.networkError).2 ∧
    (onUploadFormSubmit initialState badTypeDom
        (UploadResponse.networkError "failed to fetch") LegacyUploadResponse.networkError).1.isUploading
      = true := by
  decide

/-- C8 amended: the validation holds on the `handleVideoUpload` path:
with no file chosen it notifies and issues no request with no net state
change, and with a disallowed media type it notifies and issues no request
(but leaves the `uploading` guard held); however the legacy `uploadVideo`
handler bound to the same submit event applies no media-type validation and
issues the upload request for any chosen file. -/
theorem upload_validation_per_path (st : AppState) (dom : UploadDom)
    (resp : UploadResponse) (lresp : LegacyUploadResponse) (f : UploadFile)
    (hguard : st.isUploading = false) :
    (dom.file = none →
      notifyMsgs (handleVideoUpload st dom resp).2 = ["Please select a video file"] ∧
      requestUrls (handleVideoUpload st dom resp).2 = [] ∧
      (handleVideoUpload st dom resp).1 = st) ∧
    (dom.file = some f → allowedTypes.contains f.mediaType = false →
      notifyMsgs (handleVideoUpload st dom resp).2 =
        ["Please select a valid video file (MP4, AVI, MOV, MKV, WEBM)"] ∧
      requestUrls (handleVideoUpload st dom resp).2 = [] ∧
      (handleVideoUpload st dom resp).1.isUploading = true) ∧
    (dom.file = some f →
      "/api/upload-video" ∈ requestUrls (uploadVideo st dom lresp).2) := by
  refine ⟨?_, ?_, ?_⟩
  · intro hfile
    refine ⟨?_, ?_, ?_⟩
    · simp [handleVideoUpload, hguard, hfile, notifyMsgs]
    · simp [handleVideoUpload, hguard, hfile, requestUrls]
    · cases st with
      | mk cams vids uvids cv rc mr iu ip =>
          simp only at hguard
          subst hguard
          simp [handleVideoUpload, hfile]
  · intro hfile htype
    have htype2 : ¬ f.mediaType ∈ allowedTypes := by simpa using htype
    refine ⟨?_, ?_, ?_⟩ <;>
      simp [handleVideoUpload, hguard, hfile, htype2, notifyMsgs, requestUrls]
  · intro hfile
    cases lresp <;> simp [uploadVideo, hfile, requestUrls]

/-- Witness for the amended C8: no file chosen, and a disallowed type, at
concrete states. -/
theorem upload_validation_per_path_witness :
    notifyMsgs (handleVideoUpload initialState
        { file := none, uploadBtnExists := true }
        (UploadResponse.networkError "failed to fetch")).2 = ["Please select a video file"] ∧
    (handleVideoUpload initialState badTypeDom
        (UploadResponse.networkError "failed to fetch")).1.isUploading = true ∧
    "/api/upload-video" ∈ requestUrls (uploadVideo initialState badTypeDom
        LegacyUploadResponse.networkError).2 := by
  have h1 := upload_validation_per_path initialState
    { file := none, uploadBtnExists := true }
    (UploadResponse.networkError "failed to fetch") LegacyUploadResponse.networkError
    { name := "clip.flv", mediaType := "video/x-flv", size := 1048576 } rfl
  have h2 := upload_validation_per_path initialState badTypeDom
    (UploadResponse.networkError "failed to fetch") LegacyUploadResponse.networkError
    { name := "clip.flv", mediaType := "video/x-flv", size := 1048576 } rfl
  exact ⟨(h1.1 rfl).1, (h2.2.1 rfl (by decide)).2.2, h2.2.2 rfl⟩

end SubmissionClaims

/-! ## Guard lifecycle across the event loop

The single-threaded event loop serializes the synchronous segments of the
async handlers between their `await` points.  `orchStep` is the small-step
model of those segments, as they touch the two guard flags:

* `clickProcess` — the synchronous prefix of `processVideo` up to its
  `await fetch` (guard check; on acquisition the flag `isProcessing` is set
  and the submission request goes in flight);
* `processResponse accepted` — the response handling of that fetch: when
  accepted, `startProgressPolling` starts an interval (`activePolls` grows),
  and in either case the `finally` block runs `isProcessing := false`;
* `pollFinish` — one polling interval reaches `clearInterval` (success or
  timeout);
* `submitUploadForm` — the synchronous prefixes of both submit listeners
  with a valid file: `handleVideoUpload` (guarded) and the legacy
  `uploadVideo` (unguarded), each putting an upload request in flight;
* `uploadResponse` / `legacyUploadResponse` — the corresponding response
  handling; `handleVideoUpload`'s `finally` releases the guard. -/
structure OrchState where
  isProcessing : Bool
  isUploading : Bool
  submitsInFlight : Nat
  activePolls : Nat
  guardedUploadsInFlight : Nat
  legacyUploadsInFlight : Nat
  deriving DecidableEq, Repr

/-- Events of the guard-lifecycle model. -/
inductive OrchEvent where
  | clickProcess
  | processResponse (accepted : Bool)
  | pollFinish
  | submitUploadForm
  | uploadResponse
  | legacyUploadResponse
  deriving DecidableEq, Repr

/-- The session state before any user action. -/
def orchInit : OrchState :=
  { isProcessing := false, isUploading := false, submitsInFlight := 0,
    activePolls := 0, guardedUploadsInFlight := 0, legacyUploadsInFlight := 0 }

/-- One synchronous segment of the event loop (see the section comment). -/
def orchStep (s : OrchState) (e : OrchEvent) : OrchState :=
  match e with
  | OrchEvent.clickProcess =>
      if s.isProcessing then s
      else { s with isProcessing := true, submitsInFlight := s.submitsInFlight + 1 }
  | OrchEvent.processResponse accepted =>
      if s.submitsInFlight = 0 then s
      else { s with
          submitsInFlight := s.submitsInFlight - 1
          isProcessing := false
          activePolls := if accepted then s.activePolls + 1 else s.activePolls }
  | OrchEvent.pollFinish => { s with activePolls := s.activePolls - 1 }
  | OrchEvent.submitUploadForm =>
      let s1 := if s.isUploading then s
        else { s with
            isUploading := true
            guardedUploadsInFlight := s.guardedUploadsInFlight + 1 }
      { s1 with legacyUploadsInFlight := s1.legacyUploadsInFlight + 1 }
  | OrchEvent.uploadResponse =>
      if s.guardedUploadsInFlight = 0 then s
      else { s with
          guardedUploadsInFlight := s.guardedUploadsInFlight - 1
          isUploading := false }
  | OrchEvent.legacyUploadResponse =>
      { s with legacyUploadsInFlight := s.legacyUploadsInFlight - 1 }

/-- Running the event model from the fresh session. -/
def orchRun (es : List OrchEvent) : OrchState := es.foldl orchStep orchInit

/-- Single-flight invariant of the guard flags. -/
def OrchInv (s : OrchState) : Prop :=
  s.submitsInFlight ≤ 1 ∧ (s.submitsInFlight = 1 → s.isProcessing = true) ∧
  s.guardedUploadsInFlight ≤ 1 ∧ (s.guardedUploadsInFlight = 1 → s.isUploading = true)

theorem orchStep_inv (s : OrchState) (e : OrchEvent) (h : OrchInv s) :
    OrchInv (orchStep s e) := by
  obtain ⟨h1, h2, h3, h4⟩ := h
  cases e with
  | clickProcess =>
      by_cases hp : s.isProcessing
      · have hstep : orchStep s OrchEvent.clickProcess = s := by simp [orchStep, hp]
        rw [hstep]
        exact ⟨h1, h2, h3, h4⟩
      · have hz : s.submitsInFlight = 0 := by
          by_contra hc
          exact hp (h2 (by omega))
        have hstep : orchStep s OrchEvent.clickProcess =
            { s with
                isProcessing := true
                submitsInFlight := s.submitsInFlight + 1 } := by
          simp [orchStep, hp]
        rw [hstep]
        exact ⟨by show s.submitsInFlight + 1 ≤ 1; omega, fun _ => rfl, h3, h4⟩
  | processResponse accepted =>
      by_cases hz : s.submitsInFlight = 0
      · have hstep : orchStep s (OrchEvent.processResponse accepted) = s := by
          simp [orchStep, hz]
        rw [hstep]
        exact ⟨h1, h2, h3, h4⟩
      · have hstep : orchStep s (OrchEvent.processResponse accepted) =
            { s with
                submitsInFlight := s.submitsInFlight - 1
                isProcessing := false
                activePolls := if accepted then s.activePolls + 1 else s.activePolls } := by
          simp [orchStep, hz]
        rw [hstep]
        exact ⟨by show s.submitsInFlight - 1 ≤ 1; omega,
          fun hcontra => absurd (show s.submitsInFlight - 1 = 1 from hcontra) (by omega),
          h3, h4⟩
  | pollFinish =>
      have hstep : orchStep s OrchEvent.pollFinish =
          { s with activePolls := s.activePolls - 1 } := rfl
      rw [hstep]
      exact ⟨h1, h2, h3, h4⟩
  | submitUploadForm =>
      by_cases hu : s.isUploading
      · have hstep : orchStep s OrchEvent.submitUploadForm =
            { s with legacyUploadsInFlight := s.legacyUploadsInFlight + 1 } := by
          simp [orchStep, hu]
        rw [hstep]
        exact ⟨h1, h2, h3, h4⟩
      · have hz : s.guardedUploadsInFlight = 0 := by
          by_contra hc
          exact hu (h4 (by omega))
        have hstep : orchStep s OrchEvent.submitUploadForm =
            { s with
                isUploading := true
                guardedUploadsInFlight := s.guardedUploadsInFlight + 1
                legacyUploadsInFlight := s.legacyUploadsInFlight + 1 } := by
          simp [orchStep, hu]
        rw [hstep]
        exact ⟨h1, h2, by show s.guardedUploadsInFlight + 1 ≤ 1; omega, fun _ => rfl⟩
  | uploadResponse =>
      by_cases hz : s.guardedUploadsInFlight = 0
      · have hstep : orchStep s OrchEvent.uploadResponse = s := by
          simp [orchStep, hz]
        rw [hstep]
        exact ⟨h1, h2, h3, h4⟩
      · have hstep : orchStep s OrchEvent.uploadResponse =
            { s with
                guardedUploadsInFlight := s.guardedUploadsInFlight - 1
                isUploading := false } := by
          simp [orchStep, hz]
        rw [hstep]
        exact ⟨h1, h2, by show s.guardedUploadsInFlight - 1 ≤ 1; omega,
          fun hcontra => absurd (show s.guardedUploadsInFlight - 1 = 1 from hcontra) (by omega)⟩
  | legacyUploadResponse =>
      have hstep : orchStep s OrchEvent.legacyUploadResponse =
          { s with legacyUploadsInFlight := s.legacyUploadsInFlight - 1 } := rfl
      rw [hstep]
      exact ⟨h1, h2, h3, h4⟩

theorem orchRun_inv (es : List OrchEvent) : OrchInv (orchRun es) := by
  suffices h : ∀ s, OrchInv s → OrchInv (es.foldl orchStep s) by
    exact h orchInit (by refine ⟨?_, ?_, ?_, ?_⟩ <;> simp [orchInit])
  induction es with
  | nil => intro s hs; exact hs
  | cons e es ih =>
      intro s hs
      exact ih (orchStep s e) (orchStep_inv s e hs)

section GuardClaims

/-- C3 counterexample: the claim fails on the code: the `processing`
guard is released by `processVideo`'s `finally` block as soon as the
submission response has been handled and polling has merely *started*, not
when the job terminates.  Concretely: after a first accepted submission its
polling loop is active (`activePolls = 1`) while `isProcessing` is already
false, so a second submission in the same session is accepted rather than
rejected, and two polling loops run concurrently (`activePolls = 2`). -/
theorem concurrent_polling_counterexample :
    (orchRun [OrchEvent.clickProcess, OrchEvent.processResponse true]).activePolls = 1 ∧
    (orchRun [OrchEvent.clickProcess, OrchEvent.processResponse true]).isProcessing = false ∧
    (orchRun [OrchEvent.clickProcess, OrchEvent.processResponse true,
      OrchEvent.clickProcess, OrchEvent.processResponse true]).activePolls = 2 := by
  decide

/-- C3 amended: at any time within one session there is at most one
in-flight processing *submission* (the guard spans `processVideo` from
acquisition until its `finally` runs when the submission response has been
handled — not until the job's polling terminates) and at most one in-flight
upload *via `handleVideoUpload`*; a submission made while the guard is held
is rejected unchanged.  (The legacy `uploadVideo` handler on the same form
is unguarded, and polling loops are not covered by the guard at all.) -/
theorem single_flight_submission_and_upload (es : List OrchEvent) :
    (orchRun es).submitsInFlight ≤ 1 ∧
    (orchRun es).guardedUploadsInFlight ≤ 1 ∧
    ((orchRun es).isProcessing = true →
      orchStep (orchRun es) OrchEvent.clickProcess = orchRun es) := by
  obtain ⟨h1, _, h3, _⟩ := orchRun_inv es
  refine ⟨h1, h3, ?_⟩
  intro hp
  simp [orchStep, hp]

/-- Witness for the amended C3 on a concrete event sequence: a duplicate
click while the first submission is in flight is rejected unchanged, and the
in-flight counts stay at one. -/
theorem single_flight_submission_witness :
    (orchRun [OrchEvent.clickProcess]).submitsInFlight ≤ 1 ∧
    orchStep (orchRun [OrchEvent.clickProcess]) OrchEvent.clickProcess =
      orchRun [OrchEvent.clickProcess] := by
  have h := single_flight_submission_and_upload [OrchEvent.clickProcess]
  exact ⟨h.1, h.2.2 (by decide)⟩

end GuardClaims

end VideoApp
